import Mathlib

/-!
Verification of the HiveDesk HR-onboarding backend.

Shallow embedding of `backend/app` into Lean: the enum classes of
`app/core/enums.py`, the pure authorization check of `app/api/deps.py`,
the token service of `app/core/security.py`, and the endpoint bodies of
`app/main.py` and `app/api/routers/auth.py` translated to explicit
state-passing functions. The persistent store is modelled as Lean lists
of records; "now" is an explicit natural-number timestamp (seconds).
-/

namespace HiveDesk

/-- `UserRole` of `app/core/enums.py`: `HR = "hr"`, `EMPLOYEE = "employee"`. -/
inductive UserRole
| HR
| EMPLOYEE
deriving DecidableEq, Repr

/-- The `.value` string of a `UserRole` member. -/
def UserRole.value : UserRole → String
| .HR => "hr"
| .EMPLOYEE => "employee"

/-- `TaskStatus` of `app/core/enums.py`. -/
inductive TaskStatus
| PENDING
| COMPLETED
deriving DecidableEq, Repr

/-- `DocumentType` of `app/core/enums.py`. -/
inductive DocumentType
| AADHAR
| RESUME
| OTHER
deriving DecidableEq, Repr

/-- The `.value` string of a `DocumentType` member. -/
def DocumentType.value : DocumentType → String
| .AADHAR => "aadhar"
| .RESUME => "resume"
| .OTHER => "other"

/-- The `DocumentType(s)` string-enum constructor: succeeds exactly on the
members' values, as Python's `DocumentType(document_type.lower())` does. -/
def DocumentType.ofString? (s : String) : Option DocumentType :=
if s = "aadhar" then some .AADHAR
else if s = "resume" then some .RESUME
else if s = "other" then some .OTHER
else none

/-- `VerificationStatus` of `app/core/enums.py`. -/
inductive VerificationStatus
| PENDING
| VERIFIED
| FAILED
deriving DecidableEq, Repr

/-- The error taxonomy of spec §7 used to classify the `HTTPException`s the
endpoints raise: 401 ↦ `Unauthenticated`, 403 ↦ `Forbidden`,
404 ↦ `NotFound`, 400 "already ..." ↦ `Conflict`,
400 "Invalid document type" ↦ `InvalidInput`, 500 on a storage or
persistence failure ↦ `StorageFailure`. -/
inductive ErrorKind
| Unauthenticated
| Forbidden
| NotFound
| Conflict
| InvalidInput
| StorageFailure
deriving DecidableEq, Repr

/-- `UserModel` of `app/models/user.py` (the fields the endpoints read;
timestamps and relationship attributes omitted). -/
structure UserModel where
  id : String
  name : String
  email : String
  password_hash : String
  role : UserRole
  is_active : Bool
deriving DecidableEq, Repr

/-- Python's `str.lower()`, modelled character-wise over the string's
characters (`Char.toLower` agrees with Python on the ASCII data this
system handles). -/
def lower (s : String) : String :=
⟨s.data.map Char.toLower⟩

/-- `verify_user_access(name, role, current_user)` of `app/api/deps.py`
lines 62–72, verbatim: HR ⇒ `True`; EMPLOYEE ⇒ compare the caller's
lowercased display name with the lowercased path name and the caller's
role value with the lowercased path role; otherwise `False`. -/
def verify_user_access (name : String) (role : String) (current_user : UserModel) : Bool :=
if current_user.role = UserRole.HR then
  true
else if current_user.role = UserRole.EMPLOYEE then
  lower current_user.name = lower name && current_user.role.value = lower role
else
  false

/-- `EmployeeTaskModel`: the task-assignment record linking an employee to a
task. Its class body is not under `backend/app` in the sources; fields and
defaults are those the endpoints read and write. Modelled from the spec:
`TaskAssignment` (§3) "has status ∈ {PENDING, COMPLETED}, assigned
timestamp, completion timestamp (null until completed), assigning HR
identity"; a freshly constructed record defaults to status PENDING with the
current time as `assigned_at` and a null `completed_at` (§4.3). -/
structure EmployeeTaskModel where
  id : String
  employee_id : String
  task_id : String
  status : TaskStatus
  assigned_at : Nat
  completed_at : Option Nat
  assigned_by : String
deriving DecidableEq, Repr

/-- `complete_task` of `app/main.py` lines 457–481, as a function of the
assignment table. Gate first (`verify_user_access`, 403); then
`session.get(EmployeeTaskModel, assignment_id)` (primary-key lookup,
modelled by `find?` on `id`); `if not assignment or
assignment.employee_id != current_user.id` raises 404; otherwise the
record's status is set to COMPLETED and `completed_at` to
`datetime.utcnow()`, and the table is committed. -/
def complete_task (name : String) (role : String) (assignment_id : String)
    (state : List EmployeeTaskModel) (current_user : UserModel) (now : Nat) :
    Except ErrorKind (List EmployeeTaskModel) :=
if ¬ verify_user_access name role current_user then
  .error .Forbidden
else
  match state.find? (fun a => a.id == assignment_id) with
  | none => .error .NotFound
  | some assignment =>
    if assignment.employee_id ≠ current_user.id then
      .error .NotFound
    else
      .ok (state.map (fun a =>
        if a.id == assignment_id then
          { a with status := TaskStatus.COMPLETED, completed_at := some now }
        else a))

/-- `assign_task` of `app/main.py` lines 275–309, as a function of the
assignment table. The `require_role(UserRole.HR)` dependency runs first and
raises 403 for a non-HR caller; then the `verify_user_access` gate; then
the duplicate check on the `(employee_id, task_id)` pair raises 400 "Task
already assigned" (`Conflict`); otherwise a new record is constructed with
only `employee_id`, `task_id` and `assigned_by` given, the remaining fields
taking the record's defaults (PENDING, now, null — see
`EmployeeTaskModel`), and added to the table. `new_id` stands for the
store-generated primary key. -/
def assign_task (name : String) (role : String) (employee_id : String)
    (task_id : String) (state : List EmployeeTaskModel)
    (current_user : UserModel) (now : Nat) (new_id : String) :
    Except ErrorKind (List EmployeeTaskModel) :=
if current_user.role ≠ UserRole.HR then
  .error .Forbidden
else if ¬ verify_user_access name role current_user then
  .error .Forbidden
else
  match state.find? (fun a => a.employee_id == employee_id && a.task_id == task_id) with
  | some _ => .error .Conflict
  | none =>
    .ok (state ++ [{ id := new_id, employee_id := employee_id,
                     task_id := task_id, status := TaskStatus.PENDING,
                     assigned_at := now, completed_at := none,
                     assigned_by := current_user.id }])

/-- `ACCESS_TOKEN_EXPIRE_MINUTES` of `app/core/security.py` (default 30). -/
def ACCESS_TOKEN_EXPIRE_MINUTES : Nat := 30

/-- The JWT payload built by `create_access_token`: `sub`, the optional
`role` extra claim, and the absolute expiry timestamp `exp` (seconds). -/
structure TokenPayload where
  sub : String
  role : Option String
  exp : Nat
deriving DecidableEq, Repr

/-- A signed token: the payload together with the key it was signed with.
The HMAC signature of `jwt.encode` is modelled by recording the signing
key; `decode` accepts the token iff its recorded key equals the verifying
key, which is exactly what signature verification decides. -/
structure Token where
  payload : TokenPayload
  key : String
deriving DecidableEq, Repr

/-- `create_access_token(subject, extra_claims)` of `app/core/security.py`
lines 23–31: payload `{sub: subject}` updated with the extra claims (here
the `role` claim the login endpoint passes), `exp = utcnow() +
ACCESS_TOKEN_EXPIRE_MINUTES minutes`, signed with `SECRET_KEY`. -/
def create_access_token (secret : String) (now : Nat) (subject : String)
    (role_claim : Option String) : Token :=
{ payload := { sub := subject, role := role_claim,
               exp := now + ACCESS_TOKEN_EXPIRE_MINUTES * 60 },
  key := secret }

/-- `decode_token(token)` of `app/core/security.py` lines 34–35:
`jwt.decode` verifies the signature against `SECRET_KEY` and the `exp`
claim against the current time (jose raises `ExpiredSignatureError` when
`exp` is in the past), never touching any store; either failure surfaces
as the 401 `Unauthenticated` of `get_current_user`. Pure in
`(secret, now, token)`. -/
def decode_token (secret : String) (now : Nat) (t : Token) :
    Except ErrorKind TokenPayload :=
if t.key ≠ secret then
  .error .Unauthenticated
else if t.payload.exp < now then
  .error .Unauthenticated
else
  .ok t.payload

/-- `DocumentModel`: the document-metadata record. Its class body is not
under `backend/app` in the sources; fields are those `upload_document` and
the listing endpoints read and write. Modelled from the spec: `Document`
(§3) with "verification status ∈ {PENDING, VERIFIED, FAILED}"; a freshly
recorded document defaults to verification status PENDING (§4.4).
`file_size` and `mime_type` are omitted (never branched on). -/
structure DocumentModel where
  id : String
  employee_id : String
  document_type : DocumentType
  original_filename : String
  file_path : String
  verification_status : VerificationStatus
  task_id : Option String
deriving DecidableEq, Repr

/-- Outcome of one `upload_document` call: the error (if any), the new
document's id (on success), and the resulting metadata table and blob
store. Failure outcomes keep the state so that what a failed upload leaves
behind is observable. -/
structure UploadResult where
  error : Option ErrorKind
  document_id : Option String
  docs : List DocumentModel
  files : List String
deriving DecidableEq, Repr

/-- `upload_document` of `app/main.py` lines 349–400, as a function of the
metadata table `docs` and the blob store `files` (the set of stored file
keys under `uploads/`). Gate first (403); then the declared type is
validated by `DocumentType(document_type.lower())`, raising 400 "Invalid
document type" (`InvalidInput`) on failure; then the byte stream is written
under the key `f"{current_user.id}_{doc_type.value}_{file.filename}"` —
a failing write is caught and re-raised as 500 (`StorageFailure`) with no
metadata recorded; then the metadata row is committed — a failing commit
propagates as an internal error (`StorageFailure`) after the bytes were
already written, with no compensating cleanup in the code. The two
injectable faults `storage_fail` and `metadata_fail` model those two
collaborator failures; `new_id` stands for the store-generated key. -/
def upload_document (name : String) (role : String) (filename : String)
    (document_type : String) (task_id : Option String)
    (current_user : UserModel) (docs : List DocumentModel)
    (files : List String) (storage_fail : Bool) (metadata_fail : Bool)
    (new_id : String) : UploadResult :=
if ¬ verify_user_access name role current_user then
  { error := some .Forbidden, document_id := none, docs := docs, files := files }
else
  match DocumentType.ofString? (lower document_type) with
  | none =>
    { error := some .InvalidInput, document_id := none, docs := docs, files := files }
  | some doc_type =>
    let file_key := current_user.id ++ "_" ++ doc_type.value ++ "_" ++ filename
    if storage_fail then
      { error := some .StorageFailure, document_id := none, docs := docs, files := files }
    else
      let files_after := files ++ [file_key]
      if metadata_fail then
        { error := some .StorageFailure, document_id := none,
          docs := docs, files := files_after }
      else
        { error := none, document_id := some new_id,
          docs := docs ++ [{ id := new_id, employee_id := current_user.id,
                             document_type := doc_type,
                             original_filename := filename,
                             file_path := file_key,
                             verification_status := VerificationStatus.PENDING,
                             task_id := task_id }],
          files := files_after }

/-- The training-progress status enum. Its enum class is not under
`backend/app` in the sources. Modelled from the spec: §4.5 names a COMPLETED
state reached at 100%, "otherwise an in-progress state", with absent
records reading as pending (§3), and the employee view prints
`progress.status.value`. -/
inductive TrainingStatus
| pending
| in_progress
| completed
deriving DecidableEq, Repr

/-- The `.value` string of a `TrainingStatus` member. -/
def TrainingStatus.value : TrainingStatus → String
| .pending => "pending"
| .in_progress => "in_progress"
| .completed => "completed"

/-- `TrainingModuleModel`: the training-module definition. Its class body
is not under `backend/app` in the sources; fields are those
`get_training_modules` reads. Modelled from the spec: `TrainingModule` (§3)
"(title, description, content, duration, mandatory flag, active flag)". -/
structure TrainingModuleModel where
  id : String
  title : String
  description : String
  content : String
  duration_minutes : Nat
  is_mandatory : Bool
  is_active : Bool
deriving DecidableEq, Repr

/-- `EmployeeTrainingModel`: the per-employee training-progress record. Its
class body is not under `backend/app` in the sources; fields are those
`get_training_modules` reads. Modelled from the spec: `TrainingProgress`
(§3) "status, progress percentage (0–100), started/completed
timestamps". -/
structure EmployeeTrainingModel where
  id : String
  employee_id : String
  training_module_id : String
  status : TrainingStatus
  progress_percentage : Nat
  started_at : Option Nat
  completed_at : Option Nat
deriving DecidableEq, Repr

/-- One element of the `progress_data` list built by the employee branch of
`get_training_modules` (`app/main.py` lines 499–524): the module fields
merged with the progress fields (or their defaults). -/
structure ModuleProgressEntry where
  id : String
  title : String
  description : String
  duration_minutes : Nat
  is_mandatory : Bool
  status : String
  progress_percentage : Nat
  started_at : Option Nat
  completed_at : Option Nat
deriving DecidableEq, Repr

/-- The employee branch of `get_training_modules` (`app/main.py` lines
484–524) after the access gate: the module query selects the rows with
`is_active` true; for each such module the progress query
(`scalar_one_or_none`, modelled by `find?`) looks up the caller's record
for that module, and the entry is built from it — `"pending"`, `0`, `None`,
`None` when there is no record. -/
def get_training_modules_employee (modules : List TrainingModuleModel)
    (progress_records : List EmployeeTrainingModel)
    (current_user : UserModel) : List ModuleProgressEntry :=
(modules.filter (fun m => m.is_active)).map (fun module =>
  let progress := progress_records.find? (fun p =>
    p.employee_id == current_user.id && p.training_module_id == module.id)
  { id := module.id, title := module.title, description := module.description,
    duration_minutes := module.duration_minutes,
    is_mandatory := module.is_mandatory,
    status := match progress with
              | some p => p.status.value
              | none => "pending",
    progress_percentage := match progress with
                           | some p => p.progress_percentage
                           | none => 0,
    started_at := match progress with
                  | some p => p.started_at
                  | none => none,
    completed_at := match progress with
                    | some p => p.completed_at
                    | none => none })

/-- The `completion_rate` of the employee dashboard (`app/main.py` line
172): `len(completed_tasks) / len(user_tasks) * 100 if user_tasks else 0`,
where `completed_tasks` filters `user_tasks` by COMPLETED status. Python's
true division is modelled in `ℚ`. -/
def get_dashboard_completion_rate (user_tasks : List EmployeeTaskModel) : ℚ :=
let completed_tasks := user_tasks.filter (fun t => t.status = TaskStatus.COMPLETED)
if user_tasks ≠ [] then
  (completed_tasks.length : ℚ) / (user_tasks.length : ℚ) * 100
else 0

/-- The `completion_rate` of one employee entry in `get_all_employees`
(`app/main.py` lines 198–208): `completed / total * 100 if total > 0 else
0` over that employee's assignments. -/
def get_all_employees_completion_rate (tasks : List EmployeeTaskModel) : ℚ :=
let completed := (tasks.filter (fun t => t.status = TaskStatus.COMPLETED)).length
let total := tasks.length
if total > 0 then
  (completed : ℚ) / (total : ℚ) * 100
else 0

/-- `UserCreateSchema`: the registration payload (the fields `register`
reads). -/
structure UserCreateSchema where
  name : String
  email : String
  password : String
  role : UserRole
deriving DecidableEq, Repr

/-- `register` of `app/api/routers/auth.py` lines 53–76, as a function of
the user table. The route has no authentication dependency — no caller
identity is consulted. If a user with the payload's email exists, 400
"Email already registered" is raised (`Conflict` under §7's taxonomy, an
email-uniqueness violation); otherwise a user is created with the
requested name, email and role, the hash of the requested password, and
`is_active=True`. `hash` is the pluggable credential-hashing collaborator;
`new_id` stands for the store-generated primary key. -/
def register (users : List UserModel) (data : UserCreateSchema)
    (hash : String → String) (new_id : String) :
    Except ErrorKind (List UserModel) :=
match users.find? (fun u => u.email == data.email) with
| some _ => .error .Conflict
| none =>
  .ok (users ++ [{ id := new_id, name := data.name, email := data.email,
                   password_hash := hash data.password, role := data.role,
                   is_active := true }])

/-! Concrete records (mirroring `create_sample_data.py`'s shapes) used to
instantiate the theorems below at explicit inputs. -/

/-- A concrete HR user. -/
def johnHR : UserModel :=
{ id := "hr1", name := "John HR", email := "john.hr@company.com",
  password_hash := "h0", role := UserRole.HR, is_active := true }

/-- A concrete employee user. -/
def jane : UserModel :=
{ id := "e1", name := "Jane", email := "jane.employee@company.com",
  password_hash := "h1", role := UserRole.EMPLOYEE, is_active := true }

/-- A second concrete employee user. -/
def bob : UserModel :=
{ id := "e2", name := "Bob", email := "bob.employee@company.com",
  password_hash := "h2", role := UserRole.EMPLOYEE, is_active := true }

/-- A concrete pending assignment owned by `jane`. -/
def janesAssignment : EmployeeTaskModel :=
{ id := "as1", employee_id := "e1", task_id := "t1",
  status := TaskStatus.PENDING, assigned_at := 10, completed_at := none,
  assigned_by := "hr1" }

/-- A concrete already-completed assignment owned by `bob`. -/
def bobsCompletedAssignment : EmployeeTaskModel :=
{ id := "as2", employee_id := "e2", task_id := "t1",
  status := TaskStatus.COMPLETED, assigned_at := 10,
  completed_at := some 100, assigned_by := "hr1" }

/-- A concrete active training module. -/
def safetyModule : TrainingModuleModel :=
{ id := "m1", title := "Workplace Safety", description := "d",
  content := "c", duration_minutes := 30, is_mandatory := true,
  is_active := true }

/-- The assignment record `assign_task` constructs: the three given fields
plus the record defaults (see `EmployeeTaskModel`). -/
def newAssignment (id1 : String) (eid : String) (tid : String) (now : Nat)
    (assigner : String) : EmployeeTaskModel :=
{ id := id1, employee_id := eid, task_id := tid,
  status := TaskStatus.PENDING, assigned_at := now, completed_at := none,
  assigned_by := assigner }

/-- The entry `get_training_modules_employee` synthesizes for
`safetyModule` when no progress record exists. -/
def safetyEntry : ModuleProgressEntry :=
{ id := "m1", title := "Workplace Safety", description := "d",
  duration_minutes := 30, is_mandatory := true, status := "pending",
  progress_percentage := 0, started_at := none, completed_at := none }

/-! ## Theorems -/

/-- Helper: when the gate passes, the assignment is found and owned by the
caller, `complete_task` succeeds and maps the update over the table. -/
lemma complete_task_ok (name role aid : String)
    (state : List EmployeeTaskModel) (u : UserModel) (now : Nat)
    (a : EmployeeTaskModel)
    (hgate : verify_user_access name role u = true)
    (hfind : state.find? (fun b => b.id == aid) = some a)
    (hown : a.employee_id = u.id) :
    complete_task name role aid state u now =
      .ok (state.map (fun b => if b.id == aid then
        { b with status := TaskStatus.COMPLETED, completed_at := some now }
        else b)) := by
  unfold complete_task
  rw [if_neg (by simp [hgate]), hfind]
  exact if_neg (by simp [hown])

/-- Helper: every row of the updated table either is the completed row (if
its id is the completed assignment's) or was already in the table. -/
lemma complete_task_map_mem (state : List EmployeeTaskModel) (aid : String)
    (now : Nat) :
    ∀ b ∈ state.map (fun c => if c.id == aid then
      { c with status := TaskStatus.COMPLETED, completed_at := some now }
      else c),
      (b.id = aid → b.status = TaskStatus.COMPLETED ∧
        b.completed_at = some now) ∧
      (b.id ≠ aid → b ∈ state) := by
  intro b hb
  rw [List.mem_map] at hb
  obtain ⟨c, hc, hbc⟩ := hb
  subst hbc
  by_cases h : c.id = aid
  · rw [if_pos (by simp [h])]
    exact ⟨fun _ => ⟨rfl, rfl⟩, fun hne => absurd h hne⟩
  · rw [if_neg (by simp [h])]
    exact ⟨fun heq => absurd heq h, fun _ => hc⟩

/-- C2: `verify_user_access` is pure and obeys exactly these rules: an HR
caller is allowed for every `(claimedOwnerName, claimedOwnerRole)` pair; an
EMPLOYEE caller is allowed iff the claimed owner name case-insensitively
equals the caller's display name and the claimed owner role
case-insensitively equals `"employee"`; any caller whose role is neither is
denied (vacuous here, `UserRole` having exactly two members). -/
theorem verify_user_access_spec (u : UserModel) (n r : String) :
    (u.role = UserRole.HR → verify_user_access n r u = true) ∧
    (u.role = UserRole.EMPLOYEE →
      (verify_user_access n r u = true ↔
        (lower u.name = lower n ∧ lower r = "employee"))) ∧
    (u.role ≠ UserRole.HR → u.role ≠ UserRole.EMPLOYEE →
      verify_user_access n r u = false) := by
  refine ⟨fun h => by simp [verify_user_access, h], fun h => ?_, fun h h2 => ?_⟩
  · unfold verify_user_access
    rw [h, if_neg (by decide), if_pos rfl, Bool.and_eq_true,
      decide_eq_true_eq, decide_eq_true_eq]
    simp only [UserRole.value]
    exact ⟨fun ⟨a, b⟩ => ⟨a, b.symm⟩, fun ⟨a, b⟩ => ⟨a, b.symm⟩⟩
  · cases hu : u.role <;> simp_all

/-- Witness for C2: `jane` (EMPLOYEE, display name `"Jane"`) is allowed on
the path pair `("jane", "employee")` and denied on `("bob", "employee")`,
while the HR caller is allowed on an arbitrary pair. -/
theorem verify_user_access_spec_witness :
    verify_user_access "jane" "employee" jane = true ∧
    verify_user_access "bob" "employee" jane = false ∧
    verify_user_access "anything" "whatever" johnHR = true := by
  refine ⟨((verify_user_access_spec jane "jane" "employee").2.1 rfl).mpr
    ⟨by decide, by decide⟩, ?_, (verify_user_access_spec johnHR "anything" "whatever").1 rfl⟩
  have h := (verify_user_access_spec jane "bob" "employee").2.1 rfl
  cases hv : verify_user_access "bob" "employee" jane
  · rfl
  · exact absurd (h.mp hv).1 (by decide)

/-- C4: token round-trip — a token issued with subject `s` and role claim
`r`, validated immediately (same `now`) with the same secret, yields back
exactly subject `s` and role `r` (with the absolute expiry stamped at
issuance); and any token whose embedded expiry has passed fails validation
with `Unauthenticated`. `decode_token` is a pure function of
`(secret, now, token)` alone — no credential-store argument exists. -/
theorem token_roundtrip_and_expiry (secret s r : String) (now : Nat) (t : Token) :
    decode_token secret now (create_access_token secret now s (some r)) =
      .ok { sub := s, role := some r,
            exp := now + ACCESS_TOKEN_EXPIRE_MINUTES * 60 } ∧
    (t.payload.exp < now → decode_token secret now t = .error .Unauthenticated) := by
  constructor
  · simp [decode_token, create_access_token]
  · intro h
    unfold decode_token
    split
    · rfl
    · simp [h]

/-- Witness for C4: a token issued at time 0 for `("u1", "hr")` validates
at time 0 to exactly those claims, and at time 1801 (expiry 1800 passed)
validation fails with `Unauthenticated`. -/
theorem token_roundtrip_and_expiry_witness :
    decode_token "dev-secret-key" 0
      (create_access_token "dev-secret-key" 0 "u1" (some "hr")) =
      .ok { sub := "u1", role := some "hr", exp := 1800 } ∧
    decode_token "dev-secret-key" 1801
      (create_access_token "dev-secret-key" 0 "u1" (some "hr")) =
      .error .Unauthenticated := by
  exact ⟨(token_roundtrip_and_expiry "dev-secret-key" "u1" "hr" 0
            (create_access_token "dev-secret-key" 0 "u1" (some "hr"))).1,
         (token_roundtrip_and_expiry "dev-secret-key" "u1" "hr" 1801
            (create_access_token "dev-secret-key" 0 "u1" (some "hr"))).2
            (by decide)⟩

/-- C9: the completion-rate computations of the employee dashboard and of
the HR employee list are total — for an employee with zero task
assignments the `if` guard takes the else-branch and the reported rate is
`0`, never a division by zero. -/
theorem completion_rate_zero_tasks (tasks : List EmployeeTaskModel)
    (h : tasks = []) :
    get_dashboard_completion_rate tasks = 0 ∧
    get_all_employees_completion_rate tasks = 0 := by
  subst h
  constructor
  · simp [get_dashboard_completion_rate]
  · simp [get_all_employees_completion_rate]

/-- Witness for C9: both rates evaluate to `0` on the empty assignment
list. -/
theorem completion_rate_zero_tasks_witness :
    get_dashboard_completion_rate [] = 0 ∧
    get_all_employees_completion_rate [] = 0 :=
  completion_rate_zero_tasks [] rfl

/-- C10: `register` consults no caller identity (it is a function of the
user table and the payload only); it fails with the email-already-
registered error (`Conflict`) iff a user with the payload's email already
exists, and otherwise creates a user that is active and carries exactly
the requested role — whatever that role is, including HR. -/
theorem register_spec (users : List UserModel) (data : UserCreateSchema)
    (hash : String → String) (nid : String) :
    ((∃ u ∈ users, u.email = data.email) →
      register users data hash nid = .error .Conflict) ∧
    ((∀ u ∈ users, u.email ≠ data.email) →
      ∃ nu, register users data hash nid = .ok (users ++ [nu]) ∧
        nu.role = data.role ∧ nu.is_active = true ∧
        nu.email = data.email ∧ nu.name = data.name ∧
        nu.password_hash = hash data.password) := by
  constructor
  · rintro ⟨u, hu, he⟩
    unfold register
    split
    · rfl
    · rename_i hnone
      rw [List.find?_eq_none] at hnone
      have := hnone u hu
      simp [he] at this
  · intro hall
    have hnone : users.find? (fun v => v.email == data.email) = none := by
      rw [List.find?_eq_none]
      intro v hv
      simp [hall v hv]
    refine ⟨{ id := nid, name := data.name, email := data.email,
              password_hash := hash data.password, role := data.role,
              is_active := true }, ?_, rfl, rfl, rfl, rfl, rfl⟩
    unfold register
    rw [hnone]

/-- Witness for C10: registering `jane`'s email against a table holding
`jane` fails with the conflict error; registering a fresh HR-role payload
against the same table creates an active HR user. -/
theorem register_spec_witness :
    register [jane] { name := "Eve", email := "jane.employee@company.com",
                      password := "p", role := UserRole.HR }
      (fun s => s) "u9" = .error .Conflict ∧
    ∃ nu, register [jane] { name := "Eve", email := "eve@company.com",
                            password := "p", role := UserRole.HR }
        (fun s => s) "u9" = .ok ([jane] ++ [nu]) ∧
      nu.role = UserRole.HR ∧ nu.is_active = true := by
  constructor
  · exact (register_spec [jane]
      { name := "Eve", email := "jane.employee@company.com", password := "p",
        role := UserRole.HR } (fun s => s) "u9").1
      ⟨jane, by decide, by decide⟩
  · obtain ⟨nu, h1, h2, h3, -⟩ := (register_spec [jane]
      { name := "Eve", email := "eve@company.com", password := "p",
        role := UserRole.HR } (fun s => s) "u9").2
      (by intro u hu; simp at hu; subst hu; decide)
    exact ⟨nu, h1, h2, h3⟩

/-- C1 counterexample: employee `bob` (who passes the path gate for
`("bob", "employee")`) invokes completion on `jane`'s assignment `as1`;
the code answers 404 `NotFound` ("Task assignment not found"), not the
`Forbidden` the claim states for a foreign assignment. -/
theorem complete_task_foreign_not_forbidden :
    complete_task "bob" "employee" "as1" [janesAssignment] bob 100 =
      Except.error ErrorKind.NotFound ∧
    (Except.error ErrorKind.NotFound :
        Except ErrorKind (List EmployeeTaskModel)) ≠
      Except.error ErrorKind.Forbidden := by
  refine ⟨rfl, fun h => ?_⟩
  injection h with h
  cases h

/-- C1 (amended): with the path gate passing, `complete_task` fails with
`NotFound` when no assignment has the given id; fails with `NotFound`
(not `Forbidden`) when the assignment exists but belongs to another
employee — the same error as a missing assignment; and succeeds exactly
when the caller's id equals the assignment's employee id, in which case
the assignment's status becomes COMPLETED and its completion timestamp is
stamped with the current time. -/
theorem complete_task_spec (name : String) (role : String) (aid : String)
    (state : List EmployeeTaskModel) (u : UserModel) (now : Nat)
    (hgate : verify_user_access name role u = true) :
    (state.find? (fun b => b.id == aid) = none →
      complete_task name role aid state u now = .error .NotFound) ∧
    (∀ a, state.find? (fun b => b.id == aid) = some a →
      a.employee_id ≠ u.id →
      complete_task name role aid state u now = .error .NotFound) ∧
    (∀ a, state.find? (fun b => b.id == aid) = some a →
      a.employee_id = u.id →
      ∃ s₁, complete_task name role aid state u now = .ok s₁ ∧
        s₁.length = state.length ∧
        ∀ b ∈ s₁,
          (b.id = aid → b.status = TaskStatus.COMPLETED ∧
            b.completed_at = some now) ∧
          (b.id ≠ aid → b ∈ state)) ∧
    ((∃ s₁, complete_task name role aid state u now = .ok s₁) ↔
      (∃ a, state.find? (fun b => b.id == aid) = some a ∧
        a.employee_id = u.id)) := by
  have hg : ¬ ¬ (verify_user_access name role u = true) := by simp [hgate]
  refine ⟨?_, ?_, ?_, ?_⟩
  · intro hnone
    unfold complete_task
    rw [if_neg hg, hnone]
  · intro a hfind hne
    unfold complete_task
    rw [if_neg hg, hfind]
    exact if_pos hne
  · intro a hfind hown
    exact ⟨_, complete_task_ok name role aid state u now a hgate hfind hown,
      List.length_map state _, complete_task_map_mem state aid now⟩
  · constructor
    · rintro ⟨s₁, hs⟩
      unfold complete_task at hs
      rw [if_neg hg] at hs
      split at hs
      · cases hs
      · rename_i a heq
        split at hs
        · cases hs
        · rename_i hcond
          exact ⟨a, heq, not_not.mp hcond⟩
    · rintro ⟨a, hfind, hown⟩
      exact ⟨_, complete_task_ok name role aid state u now a hgate hfind hown⟩

/-- Witness for C1 (amended): `jane` completes her own assignment `as1`
successfully, and completion of a non-existent assignment id fails with
`NotFound`. -/
theorem complete_task_spec_witness :
    (∃ s₁, complete_task "jane" "employee" "as1" [janesAssignment] jane 50 =
      .ok s₁) ∧
    complete_task "jane" "employee" "missing" [janesAssignment] jane 50 =
      .error .NotFound := by
  constructor
  · exact (complete_task_spec "jane" "employee" "as1" [janesAssignment]
      jane 50 (by decide)).2.2.2.mpr ⟨janesAssignment, rfl, rfl⟩
  · exact (complete_task_spec "jane" "employee" "missing" [janesAssignment]
      jane 50 (by decide)).1 rfl

/-- C3: with an HR caller passing the gate, `assign_task` fails with
`Conflict` when an assignment for the `(employee, task)` pair already
exists (creating nothing — the error short-circuits before the `add`);
otherwise it appends exactly one new PENDING assignment stamped with the
current time and the assigner's identity, after which the pair occurs
exactly once (when it did not occur before) and a second call for the same
pair fails with `Conflict`. -/
theorem assign_task_spec (name : String) (role : String)
    (eid : String) (tid : String) (state : List EmployeeTaskModel)
    (u : UserModel) (now now2 : Nat) (id1 id2 : String)
    (hrole : u.role = UserRole.HR)
    (hgate : verify_user_access name role u = true) :
    ((∃ a ∈ state, a.employee_id = eid ∧ a.task_id = tid) →
      assign_task name role eid tid state u now id1 = .error .Conflict) ∧
    ((∀ a ∈ state, ¬(a.employee_id = eid ∧ a.task_id = tid)) →
      ∃ s₁, assign_task name role eid tid state u now id1 = .ok s₁ ∧
        (∃ a, s₁ = state ++ [a] ∧ a.employee_id = eid ∧ a.task_id = tid ∧
          a.status = TaskStatus.PENDING ∧ a.assigned_at = now ∧
          a.completed_at = none ∧ a.assigned_by = u.id) ∧
        (s₁.filter (fun a => a.employee_id == eid && a.task_id == tid)).length
          = 1 ∧
        assign_task name role eid tid s₁ u now2 id2 = .error .Conflict) := by
  have hr : ¬ (u.role ≠ UserRole.HR) := by simp [hrole]
  have hg : ¬ ¬ (verify_user_access name role u = true) := by simp [hgate]
  constructor
  · rintro ⟨a, ha, he, ht⟩
    unfold assign_task
    rw [if_neg hr, if_neg hg]
    have hsome :
        (state.find? (fun a => a.employee_id == eid && a.task_id == tid)).isSome := by
      rw [List.find?_isSome]
      exact ⟨a, ha, by simp [he, ht]⟩
    cases hm : state.find? (fun a => a.employee_id == eid && a.task_id == tid) with
    | none => rw [hm] at hsome; simp at hsome
    | some v => exact rfl
  · intro hall
    have hnone :
        state.find? (fun a => a.employee_id == eid && a.task_id == tid) = none := by
      rw [List.find?_eq_none]
      intro a ha
      simp only [Bool.and_eq_true, beq_iff_eq]
      exact fun hcon => hall a ha hcon
    have hmain : assign_task name role eid tid state u now id1 =
        .ok (state ++ [newAssignment id1 eid tid now u.id]) := by
      unfold assign_task
      rw [if_neg hr, if_neg hg, hnone]
      exact rfl
    refine ⟨_, hmain, ⟨newAssignment id1 eid tid now u.id,
      rfl, rfl, rfl, rfl, rfl, rfl, rfl⟩, ?_, ?_⟩
    · rw [List.filter_append]
      have h1 : state.filter (fun a => a.employee_id == eid && a.task_id == tid)
          = [] := by
        rw [List.filter_eq_nil_iff]
        intro a ha
        simp only [Bool.and_eq_true, beq_iff_eq]
        exact fun hcon => hall a ha hcon
      rw [h1]
      simp [newAssignment]
    · unfold assign_task
      rw [if_neg hr, if_neg hg]
      have hsome : ((state ++ [newAssignment id1 eid tid now u.id]).find?
          (fun a => a.employee_id == eid && a.task_id == tid)).isSome := by
        rw [List.find?_isSome]
        exact ⟨newAssignment id1 eid tid now u.id, by simp,
          by simp [newAssignment]⟩
      cases hm : (state ++ [newAssignment id1 eid tid now u.id]).find?
          (fun a => a.employee_id == eid && a.task_id == tid) with
      | none => rw [hm] at hsome; simp at hsome
      | some v => exact rfl

/-- Witness for C3: `johnHR` assigns task `t1` to employee `e1` on an
empty table; exactly one assignment for the pair results and the repeated
call fails with `Conflict`. -/
theorem assign_task_spec_witness :
    ∃ s₁, assign_task "john hr" "hr" "e1" "t1" [] johnHR 50 "as9" = .ok s₁ ∧
      (s₁.filter (fun a => a.employee_id == "e1" && a.task_id == "t1")).length
        = 1 ∧
      assign_task "john hr" "hr" "e1" "t1" s₁ johnHR 60 "as10" =
        .error .Conflict := by
  obtain ⟨s₁, h1, -, h3, h4⟩ :=
    (assign_task_spec "john hr" "hr" "e1" "t1" [] johnHR 50 60 "as9" "as10"
      rfl (by decide)).2 (by intro a ha; cases ha)
  exact ⟨s₁, h1, h3, h4⟩

/-- C8 counterexample: `bob` re-invokes completion on his already-COMPLETED
assignment `as2` (completed at time 100) at time 200. The call neither
no-ops nor fails with `Conflict`: it succeeds and changes the observable
state — `completed_at` moves from 100 to 200. -/
theorem complete_task_recompletion_not_noop :
    complete_task "bob" "employee" "as2" [bobsCompletedAssignment] bob 200 =
      Except.ok [{ bobsCompletedAssignment with completed_at := some 200 }] ∧
    ({ bobsCompletedAssignment with completed_at := some 200 } :
        EmployeeTaskModel) ≠ bobsCompletedAssignment ∧
    complete_task "bob" "employee" "as2" [bobsCompletedAssignment] bob 200 ≠
      Except.error ErrorKind.Conflict := by
  refine ⟨rfl, ?_, ?_⟩
  · intro h
    have h2 := congrArg EmployeeTaskModel.completed_at h
    simp [bobsCompletedAssignment] at h2
  · intro h
    rw [show complete_task "bob" "employee" "as2" [bobsCompletedAssignment]
        bob 200 =
      Except.ok [{ bobsCompletedAssignment with completed_at := some 200 }]
      from rfl] at h
    exact Except.noConfusion h

/-- C8 (amended): re-invoking completion on an already-COMPLETED assignment
by the owning employee succeeds again — it neither fails with `Conflict`
nor is guaranteed to be a no-op: the table is re-written with
`completed_at` re-stamped to the new current time, so the updated record
differs from the stored one whenever the new timestamp does. -/
theorem complete_task_recompletion_spec (name : String) (role : String)
    (aid : String) (state : List EmployeeTaskModel) (u : UserModel)
    (now : Nat) (a : EmployeeTaskModel)
    (hgate : verify_user_access name role u = true)
    (hfind : state.find? (fun b => b.id == aid) = some a)
    (hown : a.employee_id = u.id)
    (_hdone : a.status = TaskStatus.COMPLETED) :
    complete_task name role aid state u now =
      .ok (state.map (fun b => if b.id == aid then
        { b with status := TaskStatus.COMPLETED, completed_at := some now }
        else b)) ∧
    complete_task name role aid state u now ≠ .error .Conflict ∧
    ({ a with status := TaskStatus.COMPLETED, completed_at := some now } :
        EmployeeTaskModel) ∈
      state.map (fun b => if b.id == aid then
        { b with status := TaskStatus.COMPLETED, completed_at := some now }
        else b) ∧
    (a.completed_at ≠ some now →
      ({ a with status := TaskStatus.COMPLETED, completed_at := some now } :
        EmployeeTaskModel) ≠ a) := by
  have hok := complete_task_ok name role aid state u now a hgate hfind hown
  refine ⟨hok, ?_, ?_, ?_⟩
  · intro h
    rw [hok] at h
    exact Except.noConfusion h
  · rw [List.mem_map]
    exact ⟨a, List.mem_of_find?_eq_some hfind,
      by rw [if_pos (List.find?_some hfind)]⟩
  · intro hts h
    have h2 := congrArg EmployeeTaskModel.completed_at h
    exact hts h2.symm

/-- Witness for C8 (amended): `bob` re-completes `as2` at time 200 and the
stored record's completion timestamp becomes 200 (it was 100). -/
theorem complete_task_recompletion_spec_witness :
    complete_task "bob" "employee" "as2" [bobsCompletedAssignment] bob 200 =
      .ok [{ bobsCompletedAssignment with status := TaskStatus.COMPLETED, completed_at := some 200 }] ∧
    ({ bobsCompletedAssignment with status := TaskStatus.COMPLETED, completed_at := some 200 } : EmployeeTaskModel) ≠
      bobsCompletedAssignment := by
  have h := complete_task_recompletion_spec "bob" "employee" "as2"
    [bobsCompletedAssignment] bob 200 bobsCompletedAssignment
    (by decide) rfl rfl rfl
  exact ⟨h.1, h.2.2.2 (by decide)⟩

/-- C5: with the gate passing, a declared document type whose lowercasing
is none of `aadhar`, `resume`, `other` makes the upload fail with
`InvalidInput`, creating no document and writing no bytes; a declared type
whose lowercasing is one of them makes the (failure-free) upload succeed,
and the stored document's type is the lowercase canonical form. -/
theorem upload_document_type_validation (name : String) (role : String)
    (fn : String) (dts : String) (tid : Option String) (u : UserModel)
    (docs : List DocumentModel) (files : List String) (sf mf : Bool)
    (nid : String)
    (hgate : verify_user_access name role u = true) :
    ((lower dts ≠ "aadhar" ∧ lower dts ≠ "resume" ∧ lower dts ≠ "other") →
      (upload_document name role fn dts tid u docs files sf mf nid).error =
        some ErrorKind.InvalidInput ∧
      (upload_document name role fn dts tid u docs files sf mf nid).docs =
        docs ∧
      (upload_document name role fn dts tid u docs files sf mf nid).files =
        files) ∧
    ((lower dts = "aadhar" ∨ lower dts = "resume" ∨ lower dts = "other") →
      (upload_document name role fn dts tid u docs files false false nid).error
        = none ∧
      ∃ d, (upload_document name role fn dts tid u docs files false false
          nid).docs = docs ++ [d] ∧
        d.document_type.value = lower dts ∧
        d.verification_status = VerificationStatus.PENDING ∧
        d.employee_id = u.id ∧ d.original_filename = fn) := by
  have hg : ¬ ¬ (verify_user_access name role u = true) := by simp [hgate]
  constructor
  · rintro ⟨h1, h2, h3⟩
    have hnone : DocumentType.ofString? (lower dts) = none := by
      unfold DocumentType.ofString?
      rw [if_neg h1, if_neg h2, if_neg h3]
    unfold upload_document
    rw [if_neg hg, hnone]
    exact ⟨rfl, rfl, rfl⟩
  · intro hd
    have hsome : ∃ d : DocumentType,
        DocumentType.ofString? (lower dts) = some d ∧ d.value = lower dts := by
      rcases hd with h | h | h
      · exact ⟨DocumentType.AADHAR, by rw [h]; rfl, by rw [h]; rfl⟩
      · exact ⟨DocumentType.RESUME, by rw [h]; rfl, by rw [h]; rfl⟩
      · exact ⟨DocumentType.OTHER, by rw [h]; rfl, by rw [h]; rfl⟩
    obtain ⟨d, hty, hval⟩ := hsome
    unfold upload_document
    rw [if_neg hg, hty]
    exact ⟨rfl, ⟨_, rfl, hval, rfl, rfl, rfl⟩⟩

/-- Witness for C5: `jane` uploading with declared type `"passport"` fails
with `InvalidInput` and creates nothing; with `"AADHAR"` (mixed case) the
upload succeeds and the stored type's canonical value is `"aadhar"`. -/
theorem upload_document_type_validation_witness :
    (upload_document "jane" "employee" "f.png" "passport" none jane [] []
      false false "d1").error = some ErrorKind.InvalidInput ∧
    (upload_document "jane" "employee" "f.png" "passport" none jane [] []
      false false "d1").docs = [] ∧
    (upload_document "jane" "employee" "f.png" "AADHAR" none jane [] []
      false false "d1").error = none := by
  have hbad := (upload_document_type_validation "jane" "employee" "f.png"
    "passport" none jane [] [] false false "d1" (by decide)).1
    ⟨by decide, by decide, by decide⟩
  have hgood := (upload_document_type_validation "jane" "employee" "f.png"
    "AADHAR" none jane [] [] false false "d1" (by decide)).2
    (Or.inl (by decide))
  exact ⟨hbad.1, hbad.2.1, hgood.1⟩

/-- C7 counterexample: `bob` uploads `cv.pdf` of valid type `resume`; the
byte-stream write succeeds but the metadata commit fails. The failed
upload leaves the written bytes in storage (`files` holds the key) while
no document references them — orphaned bytes remain observable, contrary
to the claim. -/
theorem upload_metadata_failure_orphans_bytes :
    (upload_document "bob" "employee" "cv.pdf" "resume" none bob [] []
      false true "d1").error = some ErrorKind.StorageFailure ∧
    (upload_document "bob" "employee" "cv.pdf" "resume" none bob [] []
      false true "d1").docs = [] ∧
    (upload_document "bob" "employee" "cv.pdf" "resume" none bob [] []
      false true "d1").files = ["e2_resume_cv.pdf"] :=
  ⟨rfl, rfl, rfl⟩

/-- C7 (amended): half of the claimed atomicity holds — when the
byte-stream write fails, no metadata record is created and no bytes
remain. The other half fails: when the metadata write fails, no metadata
record is created but the already-written bytes stay in storage (there is
no compensating cleanup), so orphaned bytes remain observable. -/
theorem upload_atomicity_spec (name : String) (role : String) (fn : String)
    (dts : String) (tid : Option String) (u : UserModel)
    (docs : List DocumentModel) (files : List String) (nid : String)
    (d : DocumentType) (mf : Bool)
    (hgate : verify_user_access name role u = true)
    (hty : DocumentType.ofString? (lower dts) = some d) :
    ((upload_document name role fn dts tid u docs files true mf nid).error =
        some ErrorKind.StorageFailure ∧
      (upload_document name role fn dts tid u docs files true mf nid).docs =
        docs ∧
      (upload_document name role fn dts tid u docs files true mf nid).files =
        files) ∧
    ((upload_document name role fn dts tid u docs files false true nid).error
        = some ErrorKind.StorageFailure ∧
      (upload_document name role fn dts tid u docs files false true
        nid).docs = docs ∧
      (upload_document name role fn dts tid u docs files false true
        nid).files = files ++ [u.id ++ "_" ++ d.value ++ "_" ++ fn]) := by
  have hg : ¬ ¬ (verify_user_access name role u = true) := by simp [hgate]
  have h1 : ∀ mfa, upload_document name role fn dts tid u docs files true mfa
      nid = { error := some ErrorKind.StorageFailure, document_id := none,
              docs := docs, files := files } := by
    intro mfa
    unfold upload_document
    rw [if_neg hg, hty]
    exact rfl
  have h2 : upload_document name role fn dts tid u docs files false true nid
      = { error := some ErrorKind.StorageFailure, document_id := none,
          docs := docs,
          files := files ++ [u.id ++ "_" ++ d.value ++ "_" ++ fn] } := by
    unfold upload_document
    rw [if_neg hg, hty]
    exact rfl
  exact ⟨⟨by rw [h1 mf], by rw [h1 mf], by rw [h1 mf]⟩,
    by rw [h2], by rw [h2], by rw [h2]⟩

/-- Witness for C7 (amended): concrete runs of both failure modes for
`bob`'s `resume` upload. -/
theorem upload_atomicity_spec_witness :
    (upload_document "bob" "employee" "cv.pdf" "resume" none bob [] []
      true false "d1").docs = [] ∧
    (upload_document "bob" "employee" "cv.pdf" "resume" none bob [] []
      true false "d1").files = [] ∧
    (upload_document "bob" "employee" "cv.pdf" "resume" none bob [] []
      false true "d1").files = ["e2_resume_cv.pdf"] := by
  have h := upload_atomicity_spec "bob" "employee" "cv.pdf" "resume" none
    bob [] [] "d1" DocumentType.RESUME false (by decide) rfl
  exact ⟨h.1.2.1, h.1.2.2, h.2.2.2⟩

/-- C6: the employee training listing returns one entry per active module
(and only for active modules — the length matches the active filter); for
each active module, if a progress record for `(employee, module)` exists
the entry carries that record's status value, percentage and timestamps,
and if none exists the entry carries the synthesized default — status
`"pending"`, percentage 0, null timestamps — never an error. An employee
with zero progress records therefore sees every active module as pending
with 0% progress. -/
theorem training_modules_merge (modules : List TrainingModuleModel)
    (records : List EmployeeTrainingModel) (u : UserModel) :
    (get_training_modules_employee modules records u).length =
      (modules.filter (fun m => m.is_active)).length ∧
    (∀ m ∈ modules, m.is_active = true →
      ∃ e ∈ get_training_modules_employee modules records u,
        e.id = m.id ∧ e.title = m.title ∧
        e.is_mandatory = m.is_mandatory ∧
        (∀ p, records.find? (fun p => p.employee_id == u.id &&
            p.training_module_id == m.id) = some p →
          e.status = p.status.value ∧
          e.progress_percentage = p.progress_percentage ∧
          e.started_at = p.started_at ∧ e.completed_at = p.completed_at) ∧
        (records.find? (fun p => p.employee_id == u.id &&
            p.training_module_id == m.id) = none →
          e.status = "pending" ∧ e.progress_percentage = 0 ∧
          e.started_at = none ∧ e.completed_at = none)) ∧
    (records = [] →
      ∀ e ∈ get_training_modules_employee modules records u,
        e.status = "pending" ∧ e.progress_percentage = 0 ∧
        e.started_at = none ∧ e.completed_at = none) := by
  refine ⟨List.length_map _ _, ?_, ?_⟩
  · intro m hm hact
    refine ⟨_, List.mem_map.mpr
      ⟨m, List.mem_filter.mpr ⟨hm, hact⟩, rfl⟩, rfl, rfl, rfl, ?_, ?_⟩
    · intro p hp
      simp [hp]
    · intro hp
      simp [hp]
  · intro hrec e he
    subst hrec
    rw [get_training_modules_employee, List.mem_map] at he
    obtain ⟨m, hm, hem⟩ := he
    subst hem
    exact ⟨rfl, rfl, rfl, rfl⟩

/-- Witness for C6: `jane`, holding zero progress records, lists exactly
one entry for the single active module `safetyModule`, namely the
synthesized pending/0% default entry. -/
theorem training_modules_merge_witness :
    (get_training_modules_employee [safetyModule] [] jane).length = 1 ∧
    safetyEntry ∈ get_training_modules_employee [safetyModule] [] jane ∧
    safetyEntry.status = "pending" ∧
    safetyEntry.progress_percentage = 0 := by
  have hmem : safetyEntry ∈ get_training_modules_employee [safetyModule] []
      jane := by
    rw [show get_training_modules_employee [safetyModule] [] jane =
      [safetyEntry] from rfl]
    exact List.mem_singleton.mpr rfl
  have h := (training_modules_merge [safetyModule] [] jane).2.2 rfl
    safetyEntry hmem
  have hlen := (training_modules_merge [safetyModule] [] jane).1
  exact ⟨hlen, hmem, h.1, h.2.1⟩

end HiveDesk
